import Mathlib

/-
  Shallow embedding of the chat backend under verification.

  Source files modelled here:
  - src/src/modules/chat/services/workflow.service.ts  (WorkflowService)
  - src/src/modules/chat/services/chat.service.ts      (ChatService)
  - src/src/modules/chat/chat.controller.ts            (ChatController)
  - src/unnamed/part_003                               (VectorStoreService)
  - src/src/modules/chat/interfaces/processor.interface.ts

  External collaborators (Pinecone, Cohere embeddings, the OpenAI stream,
  Cloudinary blob storage, Supabase, the system clock) are modelled as a
  per-turn oracle record TurnEnv fixing the outcome of each external call.
  JavaScript truthiness on optional strings (undefined and the empty
  string are both falsy) is modelled explicitly where the source relies
  on it.
-/

set_option autoImplicit false

namespace Chatbot

/-- From processor.interface.ts: one prior conversation turn as persisted. -/
structure ChatHistoryEntry where
  timestamp : String
  userMessage : String
  llmResponse : String
  deriving DecidableEq, Repr

/-- Scalar metadata value surviving the flattening in VectorStoreService. -/
inductive MetaScalar where
  | str (s : String)
  | num (n : Int)
  | boolean (b : Bool)
  deriving DecidableEq, Repr

/-- Metadata value attached to a ProcessedContent before flattening:
either a scalar, the width/height dimensions object, or some other
non-scalar value (dropped by the flattening). -/
inductive MetaValue where
  | str (s : String)
  | num (n : Int)
  | boolean (b : Bool)
  | dimensions (width height : Int)
  | other
  deriving DecidableEq, Repr

/-- From processor.interface.ts: a normalized content chunk produced from
an uploaded file. The type field holds the literal tag string used by the
source (image / document / text). -/
structure ProcessedContent where
  type : String
  content : String
  metadata : List (String × MetaValue)
  deriving DecidableEq, Repr

/-- From processor.interface.ts: the state record threaded through one
turn of the workflow. Optional fields of the TS interface are Options. -/
structure WorkflowState where
  textInput : Option String
  images : List ProcessedContent
  documents : List ProcessedContent
  retrievedContext : List String
  chatHistory : Option (List ChatHistoryEntry)
  finalResponse : Option String
  sessionId : String
  title : Option String
  deriving DecidableEq, Repr

/-- A document handed to the vector index, as built by
VectorStoreService.storeContent. Metadata is an ordered key/value list;
later entries shadow earlier ones under JavaScript object semantics,
which no modelled operation depends on. -/
structure VectorDocument where
  pageContent : String
  metadata : List (String × MetaScalar)
  deriving DecidableEq, Repr

/-- Per-turn oracle: the outcome of every external call the turn makes.
Function-valued fields receive the arguments the source passes, so the
model records what is sent to each collaborator. -/
structure TurnEnv where
  /-- pineconeStore.addDocuments in VectorStoreService.storeContent. -/
  addDocuments : List VectorDocument → Except String Unit
  /-- pineconeStore.similaritySearch in VectorStoreService.searchSimilar:
  arguments are query, sessionId (the filter), and the result limit. -/
  similaritySearch : String → String → Nat → Except String (List String)
  /-- llm.stream in WorkflowService.executeWorkflow: receives the prompt,
  yields the finite fragment sequence or fails. -/
  stream : String → Except String (List String)
  /-- supabaseService.getHistoryUrl: the stored blob URL, if any. -/
  historyUrl : Option String
  /-- cloudinaryService.downloadChatHistory on that URL. -/
  downloadOutcome : Except String (List ChatHistoryEntry)
  /-- cloudinaryService.uploadChatHistory: the new blob URL on success. -/
  uploadOutcome : Except String String
  /-- supabaseService.upsertHistoryUrl. -/
  upsertOutcome : Except String Unit
  /-- Output of ImageProcessorService over the uploaded files of the turn. -/
  processedImages : List ProcessedContent
  /-- Output of DocumentProcessorService over the uploaded files of the turn. -/
  processedDocuments : List ProcessedContent
  /-- new Date().toISOString() for this turn. -/
  now : String

/-- JavaScript truthiness of an optional string: undefined and the empty
string are falsy. -/
def optTruthy : Option String → Bool
  | none => false
  | some s => s != ""

/-- Metadata flattening loop of VectorStoreService.storeContent: the
dimensions object becomes two numeric keys, scalars are copied, anything
else is dropped. -/
def flattenEntry (acc : List (String × MetaScalar)) (kv : String × MetaValue) :
    List (String × MetaScalar) :=
  match kv.2 with
  | MetaValue.dimensions w h =>
      if kv.1 = "dimensions" then
        acc ++ [("dimensions_width", MetaScalar.num w), ("dimensions_height", MetaScalar.num h)]
      else acc
  | MetaValue.str s => acc ++ [(kv.1, MetaScalar.str s)]
  | MetaValue.num n => acc ++ [(kv.1, MetaScalar.num n)]
  | MetaValue.boolean b => acc ++ [(kv.1, MetaScalar.boolean b)]
  | MetaValue.other => acc

/-- Document construction in VectorStoreService.storeContent: base
metadata (type, sessionId, timestamp) followed by the flattened
per-content metadata. -/
def toVectorDocument (sessionId now : String) (c : ProcessedContent) : VectorDocument :=
  { pageContent := c.content,
    metadata :=
      [("type", MetaScalar.str c.type),
       ("sessionId", MetaScalar.str sessionId),
       ("timestamp", MetaScalar.str now)]
      ++ c.metadata.foldl flattenEntry [] }

/-- The document list storeContent hands to addDocuments. -/
def mkDocuments (content : List ProcessedContent) (sessionId now : String) :
    List VectorDocument :=
  content.map (toVectorDocument sessionId now)

/-- VectorStoreService.storeContent: builds the documents, calls
addDocuments, traces, and rethrows the error on failure. -/
def storeContent (env : TurnEnv) (content : List ProcessedContent) (sessionId : String) :
    Except String Unit :=
  match env.addDocuments (mkDocuments content sessionId env.now) with
  | Except.ok _ => Except.ok ()
  | Except.error e => Except.error e

/-- VectorStoreService.searchSimilar: a similarity query failure is
caught, traced, and degraded to the empty list. -/
def searchSimilar (env : TurnEnv) (query sessionId : String) (limit : Nat) : List String :=
  match env.similaritySearch query sessionId limit with
  | Except.ok docs => docs
  | Except.error _ => []

/-- The query executeWorkflow sends to retrieval: the user message, or
the fallback phrase when the message is absent or empty (JS truthiness). -/
def queryOf (st : WorkflowState) : String :=
  match st.textInput with
  | some t => if t = "" then "summarize the provided context" else t
  | none => "summarize the provided context"

/-- Fixed opening line of buildContextPrompt. -/
def promptIntro : String := "You are a helpful AI assistant.\n\n"

/-- Rendering of one history entry inside the history section. -/
def renderHistoryEntry (e : ChatHistoryEntry) : String :=
  "User: " ++ e.userMessage ++ "\nAssistant: " ++ e.llmResponse
    ++ "\nTimestamp: " ++ e.timestamp ++ "\n"

/-- Section 1 of buildContextPrompt: the recent conversation history. -/
def historySection (h : List ChatHistoryEntry) : String :=
  "Here is the recent conversation history:\n"
    ++ h.foldl (fun acc e => acc ++ renderHistoryEntry e) ""
    ++ "\n"

/-- Section 2 of buildContextPrompt: the retrieved context block. -/
def retrievedSection (ctx : List String) : String :=
  "Here is some potentially relevant context retrieved from uploaded files and chat history:\n---\n"
    ++ String.intercalate "\n---\n" ctx
    ++ "\n---\n\n"

/-- Section 3 of buildContextPrompt when a user message is present. -/
def sentMessageSection (t : String) : String :=
  "The user has just sent this message: \"" ++ t ++ "\"\n\n"

/-- Section 3 of buildContextPrompt when no user message is present. -/
def uploadedOnlySection : String :=
  "The user has just uploaded files. Please provide a summary or a relevant response based on the uploaded content and context.\n\n"

/-- Fixed closing instruction of buildContextPrompt. -/
def promptClosing : String :=
  "Based on all the information provided (especially the most recent messages), generate a comprehensive and relevant response."

/-- WorkflowService.buildContextPrompt, section by section. The guards
mirror the source: the history section requires a defined, non-empty
chatHistory; the retrieved section requires non-empty retrievedContext;
the message section branches on JS truthiness of textInput. -/
def buildContextPrompt (state : WorkflowState) : String :=
  promptIntro
    ++ (match state.chatHistory with
        | some h => if h.length > 0 then historySection h else ""
        | none => "")
    ++ (if state.retrievedContext.length > 0 then retrievedSection state.retrievedContext else "")
    ++ (match state.textInput with
        | some t => if t = "" then uploadedOnlySection else sentMessageSection t
        | none => uploadedOnlySection)
    ++ promptClosing

/-- One iteration of the streaming loop in executeWorkflow: a truthy
(non-empty) fragment is appended to the accumulating response and also
forwarded through onChunk; an empty fragment is skipped. The pair is
(accumulated finalResponse, fragments forwarded so far). -/
def chunkStep (st : String × List String) (c : String) : String × List String :=
  if c = "" then st else (st.1 ++ c, st.2 ++ [c])

/-- The full streaming loop of executeWorkflow over the fragment list the
generator produced. -/
def streamLoop (frags : List String) : String × List String :=
  frags.foldl chunkStep ("", [])

/-- Result of one executeWorkflow call: the returned state or the thrown
error, the fragments forwarded to onChunk in order, and which collaborator
calls were reached. -/
structure ExecResult where
  outcome : Except String WorkflowState
  chunks : List String
  storeCalled : Bool
  searchCalled : Bool
  deriving Repr

/-- Retrieval and generation phase of executeWorkflow (after the store
step has succeeded or been skipped). The source binds the retrieval
result once; it is a pure value here, so the expression is repeated. -/
def genPhase (env : TurnEnv) (st : WorkflowState) (storeCalled : Bool) : ExecResult :=
  match env.stream (buildContextPrompt
      { st with retrievedContext := searchSimilar env (queryOf st) st.sessionId 5 }) with
  | Except.error e =>
      { outcome := Except.error e, chunks := [],
        storeCalled := storeCalled, searchCalled := true }
  | Except.ok frags =>
      { outcome := Except.ok
          { st with retrievedContext := searchSimilar env (queryOf st) st.sessionId 5,
                    finalResponse := some (streamLoop frags).1 },
        chunks := (streamLoop frags).2,
        storeCalled := storeCalled, searchCalled := true }

/-- WorkflowService.executeWorkflow: if the turn carries uploaded
content, the indexing write is awaited first and its failure is rethrown
(aborting the turn before retrieval); otherwise retrieval, prompt
assembly, and streaming generation run in sequence. -/
def executeWorkflow (env : TurnEnv) (st : WorkflowState) : ExecResult :=
  if (st.images ++ st.documents).length > 0 then
    match storeContent env (st.images ++ st.documents) st.sessionId with
    | Except.error e =>
        { outcome := Except.error e, chunks := [],
          storeCalled := true, searchCalled := false }
    | Except.ok _ => genPhase env st true
  else genPhase env st false

/-- JavaScript single-argument Array.slice: a negative argument keeps the
last abs(n) elements, a non-negative one drops the first n. -/
def jsSlice (h : List ChatHistoryEntry) (l : Int) : List ChatHistoryEntry :=
  if l < 0 then h.drop (h.length - l.natAbs) else h.drop l.toNat

/-- ChatService.getChatHistory: no stored URL yields the empty history; a
download failure is caught and also yields the empty history; a truthy
(non-zero) limit applies the slice. -/
def getChatHistory (env : TurnEnv) (limit : Option Int) : List ChatHistoryEntry :=
  match env.historyUrl with
  | none => []
  | some _ =>
      match env.downloadOutcome with
      | Except.error _ => []
      | Except.ok h =>
          match limit with
          | some l => if l = 0 then h else jsSlice h l
          | none => h

/-- What ChatService.saveChatHistory did: the full history list uploaded
to blob storage (if the upload was reached and succeeded) and the
arguments of every insertHistoryTitle call made. -/
structure SaveResult where
  stored : Option (List ChatHistoryEntry)
  titleInserts : List (Option String)
  deriving DecidableEq, Repr

/-- ChatService.saveChatHistory: re-reads the stored history (starting
fresh when absent or failing to download), appends the new entry, uploads
the full list, upserts the URL, and calls insertHistoryTitle whenever the
passed title is not the empty string - which in the source compares the
possibly-undefined title against the empty string with strict inequality,
so an undefined title also triggers the insert. All failures are caught
inside this method and never propagate. -/
def saveChatHistory (env : TurnEnv) (userMessage llmResponse : String)
    (chatTitle : Option String) : SaveResult :=
  let existing : List ChatHistoryEntry :=
    match env.historyUrl with
    | none => []
    | some _ =>
        match env.downloadOutcome with
        | Except.ok h => h
        | Except.error _ => []
  let newHistory := existing ++
    [{ timestamp := env.now, userMessage := userMessage, llmResponse := llmResponse }]
  match env.uploadOutcome with
  | Except.error _ => { stored := none, titleInserts := [] }
  | Except.ok _newUrl =>
      match env.upsertOutcome with
      | Except.error _ => { stored := some newHistory, titleInserts := [] }
      | Except.ok _ =>
          if chatTitle = some "" then { stored := some newHistory, titleInserts := [] }
          else { stored := some newHistory, titleInserts := [chatTitle] }

/-- A call made on the per-turn rxjs Subject channel. -/
inductive ChanEvent where
  | next (chunk : String)
  | error (e : String)
  | completed
  deriving DecidableEq, Repr

/-- Whether a channel call is a terminal notification. -/
def isTerminal : ChanEvent → Bool
  | ChanEvent.next _ => false
  | _ => true

/-- First terminal notification in a call sequence, if any. -/
def firstTerminal : List ChanEvent → Option ChanEvent
  | [] => none
  | ChanEvent.next _ :: r => firstTerminal r
  | e :: _ => some e

/-- The notifications an rxjs Subject actually emits from a raw call
sequence: everything up to and including the first terminal call; calls
after termination are ignored. -/
def effectiveEvents : List ChanEvent → List ChanEvent
  | [] => []
  | e :: rest => if isTerminal e then [e] else e :: effectiveEvents rest

/-- rxjs Subject semantics for a subscriber that attaches after the first
k raw calls: if the subject already terminated, the subscriber only gets
that terminal notification; otherwise it observes the remaining calls up
to termination. Earlier next-notifications are not replayed. -/
def subscriberView (calls : List ChanEvent) (k : Nat) : List ChanEvent :=
  match firstTerminal (calls.take k) with
  | some t => [t]
  | none => effectiveEvents (calls.drop k)

/-- Observable outcome of one settled turn: the raw calls made on its
channel, the durably stored history (if any), the insertHistoryTitle
calls, and the stream registry content after the finally block ran. -/
structure TurnResult where
  chanEvents : List ChanEvent
  stored : Option (List ChatHistoryEntry)
  titleInserts : List (Option String)
  registryAfter : List String
  deriving DecidableEq, Repr

/-- The WorkflowState ChatService.initiateChat builds for the turn: the
recent-history window is the last three stored entries (slice(-3)). -/
def initTurnState (env : TurnEnv) (msg : Option String)
    (imgs docs : List ProcessedContent) (sid : String) : WorkflowState :=
  { textInput := msg, images := imgs, documents := docs,
    retrievedContext := [],
    chatHistory := some (getChatHistory env (some (-3))),
    finalResponse := none, sessionId := sid, title := none }

/-- The background runWorkflow closure of ChatService.initiateChat, after
the channel streamId was registered: on success it persists one new
history entry and forwards the title field of the final state (never set
by the workflow) to saveChatHistory; on failure it signals the error on
the channel and skips persistence; the finally block always completes the
channel and removes the streamId from the registry. -/
def runTurn (env : TurnEnv) (msg : Option String)
    (imgs docs : List ProcessedContent) (sid stId : String) : TurnResult :=
  match (executeWorkflow env (initTurnState env msg imgs docs sid)).outcome with
  | Except.ok finalState =>
      { chanEvents :=
          (executeWorkflow env (initTurnState env msg imgs docs sid)).chunks.map ChanEvent.next
            ++ [ChanEvent.completed],
        stored := (saveChatHistory env (msg.getD "No message provided")
            (finalState.finalResponse.getD "No response generated") finalState.title).stored,
        titleInserts := (saveChatHistory env (msg.getD "No message provided")
            (finalState.finalResponse.getD "No response generated") finalState.title).titleInserts,
        registryAfter := [stId].erase stId }
  | Except.error e =>
      { chanEvents :=
          (executeWorkflow env (initTurnState env msg imgs docs sid)).chunks.map ChanEvent.next
            ++ [ChanEvent.error e, ChanEvent.completed],
        stored := none, titleInserts := [],
        registryAfter := [stId].erase stId }

/-- ChatService.getChatStream combined with subscription: an unknown or
already-deregistered streamId fails with HTTP 404; otherwise the caller
subscribes at position k of the raw call sequence of the channel. -/
def getChatStream (registry : List String) (calls : List ChanEvent)
    (streamId : String) (k : Nat) : Except Nat (List ChanEvent) :=
  if registry.contains streamId then Except.ok (subscriberView calls k)
  else Except.error 404

/-- JavaScript test (files absent or files.length === 0) used by the
controller guard. -/
def filesMissingOrEmpty : Option (List String) → Bool
  | none => true
  | some l => l.isEmpty

/-- Observable outcome of ChatController.create: the HTTP result, how
many stream channels were opened, how many session identities were
resolved, and the background turns started. -/
structure CreateResult where
  result : Except (Nat × String) String
  channelsOpened : Nat
  sessionsResolved : Nat
  backgroundTurns : List TurnResult

/-- ChatController.create followed by ChatService.initiateChat: the
message/files guard rejects with HTTP 400 before initiateChat is called;
otherwise a channel is registered, the session is resolved, the
background turn starts, and the streamId is returned. Files are processed
only when present and non-empty. -/
def create (env : TurnEnv) (msg : Option String) (files : Option (List String))
    (sid stId : String) : CreateResult :=
  if !(optTruthy msg) && filesMissingOrEmpty files then
    { result := Except.error (400, "Either text message or files must be provided"),
      channelsOpened := 0, sessionsResolved := 0, backgroundTurns := [] }
  else
    let imgs := if filesMissingOrEmpty files then [] else env.processedImages
    let docs := if filesMissingOrEmpty files then [] else env.processedDocuments
    { result := Except.ok stId,
      channelsOpened := 1, sessionsResolved := 1,
      backgroundTurns := [runTurn env msg imgs docs sid stId] }

/-- Left-to-right concatenation of a fragment list. -/
def concatList : List String → String
  | [] => ""
  | s :: r => s ++ concatList r

/-- The fragments the streaming loop keeps: exactly the non-empty ones. -/
def kept (frags : List String) : List String :=
  frags.filter (fun c => c != "")

/-- The substrings of the second argument occur in the first argument, in
the given order, at disjoint positions. -/
def containsInOrder : String → List String → Prop
  | _, [] => True
  | hay, sub :: rest => ∃ pre post, hay = pre ++ sub ++ post ∧ containsInOrder post rest

/-- The second string occurs somewhere inside the first. -/
def containsSubstr (hay sub : String) : Prop :=
  ∃ pre post, hay = pre ++ sub ++ post

theorem concatList_cons (s : String) (r : List String) :
    concatList (s :: r) = s ++ concatList r := rfl

theorem kept_cons_empty (r : List String) : kept ("" :: r) = kept r := by
  simp [kept]

theorem kept_cons_ne (c : String) (r : List String) (h : c ≠ "") :
    kept (c :: r) = c :: kept r := by
  simp [kept, h]

theorem kept_append (l r : List String) : kept (l ++ r) = kept l ++ kept r := by
  simp [kept, List.filter_append]

theorem streamLoop_go (frags : List String) :
    ∀ acc sent, frags.foldl chunkStep (acc, sent)
      = (acc ++ concatList (kept frags), sent ++ kept frags) := by
  induction frags with
  | nil => intro acc sent; simp [kept, concatList]
  | cons c rest ih =>
      intro acc sent
      by_cases hc : c = ""
      · subst hc
        simp only [List.foldl_cons, chunkStep, if_pos rfl, kept_cons_empty]
        exact ih acc sent
      · simp only [List.foldl_cons, chunkStep, if_neg hc, kept_cons_ne c rest hc]
        rw [ih]
        simp [concatList_cons, String.append_assoc]

/-- The streaming loop of executeWorkflow accumulates exactly the
non-empty fragments, and the final response is their concatenation. -/
theorem streamLoop_eq (frags : List String) :
    streamLoop frags = (concatList (kept frags), kept frags) := by
  have h := streamLoop_go frags "" []
  simpa [streamLoop, String.empty_append] using h

theorem mem_kept_ne_empty {c : String} {frags : List String}
    (h : c ∈ kept frags) : c ≠ "" := by
  simp only [kept, List.mem_filter] at h
  simpa using h.2

theorem firstTerminal_map_next (l : List String) (rest : List ChanEvent) :
    firstTerminal (l.map ChanEvent.next ++ rest) = firstTerminal rest := by
  induction l with
  | nil => rfl
  | cons c r ih => simpa [firstTerminal] using ih

/-- When the store step succeeds or is skipped, executeWorkflow proceeds
to the retrieval and generation phase. -/
theorem executeWorkflow_eq_genPhase (env : TurnEnv) (st : WorkflowState)
    (hstore : st.images ++ st.documents = []
      ∨ env.addDocuments (mkDocuments (st.images ++ st.documents) st.sessionId env.now)
          = Except.ok ()) :
    ∃ b, executeWorkflow env st = genPhase env st b := by
  by_cases hl : (st.images ++ st.documents).length > 0
  · rcases hstore with h | h
    · rw [h] at hl; simp at hl
    · refine ⟨true, ?_⟩
      have hsc : storeContent env (st.images ++ st.documents) st.sessionId = Except.ok () := by
        unfold storeContent; rw [h]
      unfold executeWorkflow
      rw [if_pos hl, hsc]
  · refine ⟨false, ?_⟩
    unfold executeWorkflow
    rw [if_neg hl]

/-- An environment identical to env except for the generator stream. -/
def withStream (env : TurnEnv) (f : String → Except String (List String)) : TurnEnv :=
  { env with stream := f }

theorem executeWorkflow_withStream (env : TurnEnv)
    (f : String → Except String (List String)) (st : WorkflowState) :
    executeWorkflow (withStream env f) st =
      if (st.images ++ st.documents).length > 0 then
        match storeContent env (st.images ++ st.documents) st.sessionId with
        | Except.error e =>
            { outcome := Except.error e, chunks := [],
              storeCalled := true, searchCalled := false }
        | Except.ok _ => genPhase (withStream env f) st true
      else genPhase (withStream env f) st false := rfl

theorem genPhase_const_stream (env : TurnEnv) (st : WorkflowState) (b : Bool)
    (frags : List String) :
    genPhase (withStream env (fun _ => Except.ok frags)) st b
      = { outcome := Except.ok
            { st with retrievedContext := searchSimilar env (queryOf st) st.sessionId 5,
                      finalResponse := some (concatList (kept frags)) },
          chunks := kept frags, storeCalled := b, searchCalled := true } := by
  unfold genPhase withStream
  simp [searchSimilar, queryOf, streamLoop_eq]

/-- C1 counterexample input: one uploaded image plus an indexing backend
whose write fails. -/
def imgUpload : ProcessedContent :=
  { type := "image", content := "a cat photo", metadata := [] }

/-- Baseline oracle: every collaborator call succeeds, the generator
yields one fragment, and no history is stored yet. -/
def envOk : TurnEnv :=
  { addDocuments := fun _ => Except.ok (),
    similaritySearch := fun _ _ _ => Except.ok [],
    stream := fun _ => Except.ok ["Hello there"],
    historyUrl := none, downloadOutcome := Except.ok [],
    uploadOutcome := Except.ok "blob-url-1", upsertOutcome := Except.ok (),
    processedImages := [], processedDocuments := [],
    now := "2026-01-01T00:00:00Z" }

/-- Oracle whose durable indexing write fails. -/
def envStoreFail : TurnEnv :=
  { envOk with addDocuments := fun _ => Except.error "index write failed" }

/-- A turn state carrying one uploaded image. -/
def stUpload : WorkflowState :=
  { textInput := some "what is in the picture", images := [imgUpload], documents := [],
    retrievedContext := [], chatHistory := some [], finalResponse := none,
    sessionId := "session-1", title := none }

/-- C1 counterexample: with one uploaded image and a failing indexing
write, executeWorkflow rethrows the indexing error: no retrieval query is
issued, no fragment is forwarded, and no finalResponse is produced - the
indexing write is awaited inline and its failure fails the turn, contrary
to the claim that it is scheduled as an independent background task whose
failure is only logged. -/
theorem c1_counterexample :
    stUpload.images ≠ []
    ∧ (executeWorkflow envStoreFail stUpload).outcome = Except.error "index write failed"
    ∧ (executeWorkflow envStoreFail stUpload).chunks = []
    ∧ (executeWorkflow envStoreFail stUpload).searchCalled = false :=
  ⟨by simp [stUpload], rfl, rfl, rfl⟩

/-- C1 (amended): for every turn whose WorkflowState contains at least
one uploaded image or document, executeWorkflow awaits the durable
indexing write inline, and a failure of that write fails the turn: the
error is rethrown, retrieval never runs, no fragment is forwarded, and no
finalResponse is returned. -/
theorem c1_indexing_awaited (env : TurnEnv) (st : WorkflowState) (e : String)
    (hcontent : st.images ++ st.documents ≠ [])
    (hfail : env.addDocuments (mkDocuments (st.images ++ st.documents) st.sessionId env.now)
      = Except.error e) :
    (executeWorkflow env st).outcome = Except.error e
    ∧ (executeWorkflow env st).chunks = []
    ∧ (executeWorkflow env st).searchCalled = false := by
  have hl : (st.images ++ st.documents).length > 0 := List.length_pos.mpr hcontent
  have hsc : storeContent env (st.images ++ st.documents) st.sessionId = Except.error e := by
    unfold storeContent; rw [hfail]
  unfold executeWorkflow
  rw [if_pos hl, hsc]
  exact ⟨rfl, rfl, rfl⟩

/-- C1 witness: the amended theorem applied to the concrete failing
indexing backend. -/
theorem c1_witness :
    stUpload.images ++ stUpload.documents ≠ []
    ∧ envStoreFail.addDocuments
        (mkDocuments (stUpload.images ++ stUpload.documents) stUpload.sessionId envStoreFail.now)
        = Except.error "index write failed"
    ∧ ((executeWorkflow envStoreFail stUpload).outcome = Except.error "index write failed"
       ∧ (executeWorkflow envStoreFail stUpload).chunks = []
       ∧ (executeWorkflow envStoreFail stUpload).searchCalled = false) :=
  ⟨by simp [stUpload], rfl,
    c1_indexing_awaited envStoreFail stUpload "index write failed" (by simp [stUpload]) rfl⟩

/-- C6: whenever the store step passes and the generator produces the
finite fragment sequence frags, the returned finalResponse is exactly the
left-to-right concatenation of the fragments forwarded to onChunk, and
those fragments form an order-preserving subsequence of frags (the
non-empty ones, in generator order). -/
theorem c6_stream_accumulation (env : TurnEnv) (st : WorkflowState) (frags : List String)
    (hstore : st.images ++ st.documents = []
      ∨ env.addDocuments (mkDocuments (st.images ++ st.documents) st.sessionId env.now)
          = Except.ok ())
    (hgen : env.stream (buildContextPrompt
        { st with retrievedContext := searchSimilar env (queryOf st) st.sessionId 5 })
      = Except.ok frags) :
    ∃ fs, (executeWorkflow env st).outcome = Except.ok fs
      ∧ fs.finalResponse = some (concatList (executeWorkflow env st).chunks)
      ∧ (executeWorkflow env st).chunks = kept frags
      ∧ List.Sublist (executeWorkflow env st).chunks frags := by
  obtain ⟨b, hb⟩ := executeWorkflow_eq_genPhase env st hstore
  rw [hb]
  unfold genPhase
  rw [hgen]
  refine ⟨_, rfl, ?_, ?_, ?_⟩
  · simp [streamLoop_eq]
  · simp [streamLoop_eq]
  · simp only [streamLoop_eq, kept]
    exact List.filter_sublist frags

/-- C6 witness: the fragment sequence of the spec example accumulates to
the concatenated response. -/
def envC6 : TurnEnv :=
  { envOk with stream := fun _ => Except.ok ["Hel", "lo, ", "world"] }

/-- A plain text-only turn state. -/
def stText : WorkflowState :=
  { textInput := some "hi", images := [], documents := [],
    retrievedContext := [], chatHistory := some [], finalResponse := none,
    sessionId := "session-1", title := none }

/-- C6 witness: applying the theorem to the spec example fragments Hel,
lo-comma-space, world yields the response Hello, world. -/
theorem c6_witness :
    stText.images ++ stText.documents = []
    ∧ envC6.stream (buildContextPrompt
        { stText with retrievedContext := searchSimilar envC6 (queryOf stText) stText.sessionId 5 })
        = Except.ok ["Hel", "lo, ", "world"]
    ∧ (∃ fs, (executeWorkflow envC6 stText).outcome = Except.ok fs
        ∧ fs.finalResponse = some (concatList (executeWorkflow envC6 stText).chunks)
        ∧ (executeWorkflow envC6 stText).chunks = kept ["Hel", "lo, ", "world"]
        ∧ List.Sublist (executeWorkflow envC6 stText).chunks ["Hel", "lo, ", "world"])
    ∧ concatList (kept ["Hel", "lo, ", "world"]) = "Hello, world" :=
  ⟨rfl, rfl, c6_stream_accumulation envC6 stText ["Hel", "lo, ", "world"] (Or.inl rfl) rfl, rfl⟩

/-- C7: when the similarity query against the index fails, searchSimilar
returns the empty list instead of propagating the error, the retrieved
context of the turn is empty, and the turn still completes with the
non-empty response produced by a succeeding generator. -/
theorem c7_retrieval_degrades (env : TurnEnv) (st : WorkflowState) (err : String)
    (frags : List String)
    (hsearch : env.similaritySearch (queryOf st) st.sessionId 5 = Except.error err)
    (hstore : st.images ++ st.documents = []
      ∨ env.addDocuments (mkDocuments (st.images ++ st.documents) st.sessionId env.now)
          = Except.ok ())
    (hgen : env.stream (buildContextPrompt { st with retrievedContext := [] })
      = Except.ok frags)
    (hne : concatList (kept frags) ≠ "") :
    searchSimilar env (queryOf st) st.sessionId 5 = []
    ∧ ∃ fs, (executeWorkflow env st).outcome = Except.ok fs
        ∧ fs.retrievedContext = []
        ∧ fs.finalResponse = some (concatList (kept frags))
        ∧ fs.finalResponse ≠ some "" := by
  have hret : searchSimilar env (queryOf st) st.sessionId 5 = [] := by
    simp [searchSimilar, hsearch]
  refine ⟨hret, ?_⟩
  obtain ⟨b, hb⟩ := executeWorkflow_eq_genPhase env st hstore
  rw [hb]
  unfold genPhase
  rw [hret, hgen]
  refine ⟨_, rfl, by simp, by simp [streamLoop_eq], ?_⟩
  simp [streamLoop_eq, hne]

/-- Oracle whose similarity query fails while everything else succeeds. -/
def envSearchFail : TurnEnv :=
  { envOk with similaritySearch := fun _ _ _ => Except.error "index query failed" }

/-- C7 witness: the theorem applied to a turn whose index query fails and
whose generator yields the fragment Hello there. -/
theorem c7_witness :
    envSearchFail.similaritySearch (queryOf stText) stText.sessionId 5
        = Except.error "index query failed"
    ∧ stText.images ++ stText.documents = []
    ∧ envSearchFail.stream (buildContextPrompt { stText with retrievedContext := [] })
        = Except.ok ["Hello there"]
    ∧ concatList (kept ["Hello there"]) ≠ ""
    ∧ (searchSimilar envSearchFail (queryOf stText) stText.sessionId 5 = []
       ∧ ∃ fs, (executeWorkflow envSearchFail stText).outcome = Except.ok fs
           ∧ fs.retrievedContext = []
           ∧ fs.finalResponse = some (concatList (kept ["Hello there"]))
           ∧ fs.finalResponse ≠ some "") :=
  ⟨rfl, rfl, rfl, by decide,
    c7_retrieval_degrades envSearchFail stText "index query failed" ["Hello there"]
      rfl (Or.inl rfl) rfl (by decide)⟩

/-- C10: inserting an empty fragment anywhere in the generator output
leaves the entire result of executeWorkflow unchanged (the accumulator
and the forwarded sequence ignore it), and no forwarded fragment is ever
the empty string. -/
theorem c10_empty_fragment_skipped (env : TurnEnv) (st : WorkflowState)
    (l r : List String) :
    executeWorkflow (withStream env (fun _ => Except.ok (l ++ "" :: r))) st
      = executeWorkflow (withStream env (fun _ => Except.ok (l ++ r))) st
    ∧ ∀ frags, "" ∉ (executeWorkflow (withStream env (fun _ => Except.ok frags)) st).chunks := by
  constructor
  · rw [executeWorkflow_withStream, executeWorkflow_withStream]
    by_cases hl : (st.images ++ st.documents).length > 0
    · simp only [if_pos hl]
      cases h : storeContent env (st.images ++ st.documents) st.sessionId with
      | error e => rfl
      | ok u =>
          rw [genPhase_const_stream, genPhase_const_stream]
          simp [kept_append, kept_cons_empty]
    · simp only [if_neg hl]
      rw [genPhase_const_stream, genPhase_const_stream]
      simp [kept_append, kept_cons_empty]
  · intro frags
    rw [executeWorkflow_withStream]
    by_cases hl : (st.images ++ st.documents).length > 0
    · simp only [if_pos hl]
      cases h : storeContent env (st.images ++ st.documents) st.sessionId with
      | error e => simp
      | ok u =>
          rw [genPhase_const_stream]
          exact fun hmem => mem_kept_ne_empty hmem rfl
    · simp only [if_neg hl]
      rw [genPhase_const_stream]
      exact fun hmem => mem_kept_ne_empty hmem rfl

/-- A substring occurrence forces every character of the substring to
occur in the haystack. -/
theorem not_containsSubstr_of_char {hay sub : String} (c : Char)
    (hc : c ∈ sub.data) (hn : c ∉ hay.data) : ¬ containsSubstr hay sub := by
  rintro ⟨pre, post, h⟩
  apply hn
  rw [h, String.data_append, String.data_append]
  exact List.mem_append.mpr (Or.inl (List.mem_append.mpr (Or.inr hc)))

/-- One prior history entry used in concrete prompt states. -/
def histEntryA : ChatHistoryEntry :=
  { timestamp := "t1", userMessage := "hi", llmResponse := "yo" }

/-- Full turn state for C2: non-empty history, a newly uploaded image
whose extracted content is the string ZZZ, non-empty retrieved context,
and a user message. -/
def stC2 : WorkflowState :=
  { textInput := some "hello",
    images := [{ type := "image", content := "ZZZ", metadata := [] }],
    documents := [], retrievedContext := ["ctx chunk"],
    chatHistory := some [histEntryA], finalResponse := none,
    sessionId := "session-2", title := none }

/-- C2 counterexample: for a state with non-empty history, a newly
uploaded image, non-empty retrieved context, and a message present, the
rendered prompt contains no newly-uploaded-content block at all - the
uploaded content ZZZ does not occur anywhere in the prompt, so no
ordering involving such a block can hold. -/
theorem c2_counterexample :
    stC2.images ≠ []
    ∧ optTruthy stC2.textInput = true
    ∧ stC2.chatHistory = some [histEntryA]
    ∧ stC2.retrievedContext ≠ []
    ∧ ¬ containsSubstr (buildContextPrompt stC2) "ZZZ" := by
  refine ⟨by simp [stC2], rfl, rfl, by simp [stC2], ?_⟩
  apply not_containsSubstr_of_char (c := 'Z')
  · decide
  · decide

/-- C2 (amended): for a state with non-empty history, non-empty retrieved
context, and a truthy message, the prompt contains the rendered history
block at an earlier position than the retrieved-context block, which
appears at an earlier position than the user-message block. The prompt
has no separate newly-uploaded-content section: uploaded content reaches
the prompt only through the retrieved context. -/
theorem c2_prompt_ordering (st : WorkflowState) (h : List ChatHistoryEntry) (t : String)
    (hh : st.chatHistory = some h) (hne : h ≠ [])
    (hctx : st.retrievedContext ≠ [])
    (ht : st.textInput = some t) (htne : t ≠ "") :
    containsInOrder (buildContextPrompt st)
      [historySection h, retrievedSection st.retrievedContext, sentMessageSection t] := by
  have hlen : h.length > 0 := List.length_pos.mpr hne
  have hclen : st.retrievedContext.length > 0 := List.length_pos.mpr hctx
  unfold buildContextPrompt
  rw [hh, ht]
  show containsInOrder
    ((((promptIntro ++ (if h.length > 0 then historySection h else ""))
        ++ (if st.retrievedContext.length > 0 then retrievedSection st.retrievedContext else ""))
      ++ (if t = "" then uploadedOnlySection else sentMessageSection t)) ++ promptClosing) _
  rw [if_pos hlen, if_pos hclen, if_neg htne]
  simp only [containsInOrder]
  refine ⟨promptIntro,
    retrievedSection st.retrievedContext ++ (sentMessageSection t ++ promptClosing),
    by simp [String.append_assoc],
    "", sentMessageSection t ++ promptClosing, by simp,
    "", promptClosing, by simp, trivial⟩

/-- C2 witness: the amended ordering at the concrete full state. -/
theorem c2_witness :
    stC2.chatHistory = some [histEntryA]
    ∧ ([histEntryA] : List ChatHistoryEntry) ≠ []
    ∧ stC2.retrievedContext ≠ []
    ∧ stC2.textInput = some "hello"
    ∧ "hello" ≠ ""
    ∧ containsInOrder (buildContextPrompt stC2)
        [historySection [histEntryA], retrievedSection stC2.retrievedContext,
         sentMessageSection "hello"] :=
  ⟨rfl, by simp, by simp [stC2], rfl, by simp,
    c2_prompt_ordering stC2 [histEntryA] "hello" rfl (by simp) (by simp [stC2]) rfl (by simp)⟩

/-- C3 code evaluation: on a first turn (no stored history), the final
workflow state carries no title (no title-generation call exists in the
workflow), yet insertHistoryTitle is invoked - with that undefined title -
because the guard compares the undefined title to the empty string with
strict inequality; the new history entry itself is persisted. -/
theorem c3_no_title_generation :
    ((executeWorkflow envOk (initTurnState envOk (some "hi") [] [] "session-1")).outcome.map
        WorkflowState.title) = Except.ok none
    ∧ (runTurn envOk (some "hi") [] [] "session-1" "stream-1").titleInserts = [none]
    ∧ (runTurn envOk (some "hi") [] [] "session-1" "stream-1").stored
        = some [{ timestamp := "2026-01-01T00:00:00Z", userMessage := "hi",
                  llmResponse := "Hello there" }] :=
  ⟨rfl, rfl, rfl⟩

/-- Oracle whose generator emits the single fragment a. -/
def envC4 : TurnEnv := { envOk with stream := fun _ => Except.ok ["a"] }

/-- C4 code evaluation: the turn publishes the fragment a and then
completes; a subscriber that attaches after that fragment was published
observes only the completion - the plain rxjs Subject does not replay
fragments published before the subscriber attached, so they are
dropped. -/
theorem c4_pre_subscription_drop :
    (runTurn envC4 (some "x") [] [] "session-4" "stream-4").chanEvents
        = [ChanEvent.next "a", ChanEvent.completed]
    ∧ subscriberView (runTurn envC4 (some "x") [] [] "session-4" "stream-4").chanEvents 1
        = [ChanEvent.completed]
    ∧ ChanEvent.next "a"
        ∉ subscriberView (runTurn envC4 (some "x") [] [] "session-4" "stream-4").chanEvents 1 :=
  ⟨rfl, rfl, by decide⟩

/-- C5: whenever the workflow of a turn throws, the channel of the turn
terminates in the errored state (the error notification precedes the
completion call of the finally block, which the Subject then ignores) and
nothing is persisted: no history entry is appended and no title insert is
attempted. -/
theorem c5_failed_turn_skips_persistence (env : TurnEnv) (msg : Option String)
    (imgs docs : List ProcessedContent) (sid stId : String) (e : String)
    (h : (executeWorkflow env (initTurnState env msg imgs docs sid)).outcome
      = Except.error e) :
    (runTurn env msg imgs docs sid stId).stored = none
    ∧ (runTurn env msg imgs docs sid stId).titleInserts = []
    ∧ firstTerminal (runTurn env msg imgs docs sid stId).chanEvents
        = some (ChanEvent.error e) := by
  unfold runTurn
  rw [h]
  refine ⟨rfl, rfl, ?_⟩
  rw [firstTerminal_map_next]
  rfl

/-- Oracle whose generation stream fails outright. -/
def envGenFail : TurnEnv :=
  { envOk with stream := fun _ => Except.error "generation failed" }

/-- C5 witness: the theorem applied to a concrete failing generator. -/
theorem c5_witness :
    (executeWorkflow envGenFail (initTurnState envGenFail (some "hi") [] [] "session-5")).outcome
        = Except.error "generation failed"
    ∧ ((runTurn envGenFail (some "hi") [] [] "session-5" "stream-5").stored = none
       ∧ (runTurn envGenFail (some "hi") [] [] "session-5" "stream-5").titleInserts = []
       ∧ firstTerminal (runTurn envGenFail (some "hi") [] [] "session-5" "stream-5").chanEvents
           = some (ChanEvent.error "generation failed")) :=
  ⟨rfl, c5_failed_turn_skips_persistence envGenFail (some "hi") [] [] "session-5" "stream-5"
    "generation failed" rfl⟩

/-- C8: however the background workflow settles - success or failure -
the finally block leaves the stream registry without the streamId of the
turn, and every subsequent getChatStream call with that id fails with
HTTP 404. -/
theorem c8_registry_cleanup (env : TurnEnv) (msg : Option String)
    (imgs docs : List ProcessedContent) (sid stId : String) :
    (runTurn env msg imgs docs sid stId).registryAfter = []
    ∧ ∀ calls k, getChatStream (runTurn env msg imgs docs sid stId).registryAfter calls stId k
        = Except.error 404 := by
  have hreg : (runTurn env msg imgs docs sid stId).registryAfter = [] := by
    unfold runTurn
    split <;> simp
  refine ⟨hreg, ?_⟩
  intro calls k
  rw [hreg]
  simp [getChatStream]

/-- C9: a request with no message and an absent or empty file list is
rejected with HTTP 400 and the exact guard message, before any stream
channel is registered, any session identity is resolved, or any
background turn starts. -/
theorem c9_empty_request_rejected (env : TurnEnv) (files : Option (List String))
    (sid stId : String) (h : files = none ∨ files = some []) :
    (create env none files sid stId).result
        = Except.error (400, "Either text message or files must be provided")
    ∧ (create env none files sid stId).channelsOpened = 0
    ∧ (create env none files sid stId).sessionsResolved = 0
    ∧ (create env none files sid stId).backgroundTurns = [] := by
  rcases h with h | h <;> subst h <;> exact ⟨rfl, rfl, rfl, rfl⟩

/-- C9 witness: the guard fires for the fully absent request. -/
theorem c9_witness :
    ((none : Option (List String)) = none ∨ (none : Option (List String)) = some [])
    ∧ ((create envOk none none "session-9" "stream-9").result
          = Except.error (400, "Either text message or files must be provided")
       ∧ (create envOk none none "session-9" "stream-9").channelsOpened = 0
       ∧ (create envOk none none "session-9" "stream-9").sessionsResolved = 0
       ∧ (create envOk none none "session-9" "stream-9").backgroundTurns = []) :=
  ⟨Or.inl rfl, c9_empty_request_rejected envOk none "session-9" "stream-9" (Or.inl rfl)⟩

end Chatbot
